import Mathlib

/-!
Shallow embedding of the `@fastify/sse` plugin core (src/index.js):
the SSE message encoder `formatSSEMessage`, the per-connection
`SSEContext` state machine (connection flag, header transmission,
close/cleanup, backpressure-aware `writeToStream`, heartbeat), and the
source dispatcher used by `send`.

JavaScript values that can reach the encoder or the dispatcher are
modelled by `JsPrim` (primitives) and `JsValue` (primitives, Buffers and
objects); the mutable per-connection state (`SSEContext` plus the raw
HTTP response it writes to) is modelled by `CtxState` and `RawSink`, and
each method becomes a pure state-passing function.  Asynchronous
behaviour of the sink (whether `write` accepts a chunk at once, and
which of the `drain`/`error` events fires during backpressure) is passed
in as explicit parameters.
-/

namespace SSE

/-- A JavaScript primitive value, as far as the encoder's truthiness and
`!== undefined` tests can distinguish them. -/
inductive JsPrim where
  | undef
  | null
  | bool (b : Bool)
  | num (n : Int)
  | str (s : String)
deriving DecidableEq, Repr

/-- JavaScript truthiness: `undefined`, `null`, `false`, `0` and the empty
string are falsy. -/
def JsPrim.truthy : JsPrim → Bool
  | .undef => false
  | .null => false
  | .bool b => b
  | .num n => decide (n ≠ 0)
  | .str s => decide (s ≠ "")

/-- Template-literal string conversion, as in `` `id: ${message.id}` ``. -/
def JsPrim.toStr : JsPrim → String
  | .undef => "undefined"
  | .null => "null"
  | .bool b => if b then "true" else "false"
  | .num n => toString n
  | .str s => s

/-- `String.prototype.split('\n')`: split a character list at every
newline; always returns at least one (possibly empty) segment. -/
def splitNl : List Char → List (List Char)
  | [] => [[]]
  | c :: cs =>
    if c = '\n' then [] :: splitNl cs
    else
      match splitNl cs with
      | [] => [[c]]
      | l :: ls => (c :: l) :: ls

/-- `str.split('\n')` on Lean strings. -/
def splitLines (s : String) : List String :=
  (splitNl s.data).map String.mk

/-- The loop `for (const line of str.split('\n')) payload += 'data: ' + line + '\n'`. -/
def dataLinesList : List String → String
  | [] => ""
  | l :: ls => "data: " ++ l ++ "\n" ++ dataLinesList ls

/-- All `data:` lines produced for one payload string. -/
def dataLines (s : String) : String :=
  dataLinesList (splitLines s)

/-- The field values an SSE message object carries: the results of the
property accesses `message.id`, `message.event`, `message.data`,
`message.retry` (`undef` when the key is absent). -/
structure SSEObject where
  id : JsPrim
  event : JsPrim
  data : JsPrim
  retry : JsPrim
deriving DecidableEq, Repr

/-- The three shapes `formatSSEMessage` distinguishes: a plain string, a
Buffer (kept as its UTF-8 decoding), or an SSE message object. -/
inductive SSEInput where
  | str (s : String)
  | buf (s : String)
  | obj (o : SSEObject)
deriving DecidableEq, Repr

/-- `formatSSEMessage(message, serializer)` from src/index.js: strings and
Buffers are split into `data:` lines; objects emit `id:` and `event:`
(when truthy), then `data:` lines of the serialized data (when the data
value is not `undefined`), then `retry:` (when truthy); a trailing blank
line is appended when anything was emitted. -/
def formatSSEMessage (message : SSEInput) (serializer : JsPrim → String) : String :=
  let payload : String :=
    match message with
    | .str s => dataLines s
    | .buf s => dataLines s
    | .obj o =>
      (if o.id.truthy then "id: " ++ o.id.toStr ++ "\n" else "")
        ++ (if o.event.truthy then "event: " ++ o.event.toStr ++ "\n" else "")
        ++ (if o.data ≠ JsPrim.undef then dataLines (serializer o.data) else "")
        ++ (if o.retry.truthy then "retry: " ++ o.retry.toStr ++ "\n" else "")
  if payload = "" then payload else payload ++ "\n"

/-- One hexadecimal digit. -/
def hexDigit (n : Nat) : Char :=
  if n < 10 then Char.ofNat (48 + n) else Char.ofNat (87 + (n % 16))

/-- JSON escaping of a single character inside a quoted string. -/
def jsonEscapeChar (c : Char) : String :=
  if c = '"' then "\\\""
  else if c = '\\' then "\\\\"
  else if c = '\n' then "\\n"
  else if c = '\r' then "\\r"
  else if c = '\t' then "\\t"
  else if c.toNat < 32 then
    "\\u00" ++ String.mk [hexDigit (c.toNat / 16), hexDigit (c.toNat % 16)]
  else String.singleton c

/-- JSON quoting of a string value. -/
def jsonQuote (s : String) : String :=
  "\"" ++ String.join (s.data.map jsonEscapeChar) ++ "\""

/-- The default serializer `JSON.stringify`, on the primitives of our
model (the `undef` case is unreachable from the encoder, which guards
with `message.data !== undefined`). -/
def jsonStringify : JsPrim → String
  | .undef => "undefined"
  | .null => "null"
  | .bool b => if b then "true" else "false"
  | .num n => toString n
  | .str s => jsonQuote s

/-- The raw HTTP response (`reply.raw`) as the context observes it:
headers set via `setHeader`, whether/how often `writeHead` ran, the
chunks handed to `write`, and how often `end` was called. -/
structure RawSink where
  headers : List (String × String)
  statusWritten : Bool
  writeHeadCount : Nat
  written : List String
  endCount : Nat
deriving DecidableEq, Repr

/-- The mutable state of one `SSEContext`: the liveness / keep-alive /
headers-sent flags, whether the heartbeat interval timer is running, the
captured `Last-Event-ID`, the registered close callbacks (an id plus
whether the callback throws when invoked), the log of callback
invocations, the headers accumulated on the Fastify reply object, and
the raw sink. -/
structure CtxState where
  connected : Bool
  keepAliveFlag : Bool
  headersSent : Bool
  heartbeatRunning : Bool
  lastEventId : Option String
  closeCallbacks : List (Nat × Bool)
  invoked : List Nat
  replyHeaders : List (String × String)
  raw : RawSink
deriving DecidableEq, Repr

/-- The `SSEContext` constructor: connected, no keep-alive, headers not
sent, heartbeat running iff the interval is positive, `lastEventId`
normalised by `options.lastEventId || null` (so the empty string becomes
null), empty callback list, fresh sink. -/
def mkContext (lastEventId : Option String) (heartbeatInterval : Nat)
    (replyHeaders : List (String × String)) : CtxState :=
  { connected := true
    keepAliveFlag := false
    headersSent := false
    heartbeatRunning := decide (0 < heartbeatInterval)
    lastEventId :=
      match lastEventId with
      | some t => if t = "" then none else some t
      | none => none
    closeCallbacks := []
    invoked := []
    replyHeaders := replyHeaders
    raw := { headers := [], statusWritten := false, writeHeadCount := 0
             written := [], endCount := 0 } }

/-- Node's `response.setHeader`: overwrite the header if the name is
already present, append it otherwise. -/
def setHeader (hs : List (String × String)) (name val : String) :
    List (String × String) :=
  if hs.any (fun p => p.1 = name) then
    hs.map (fun p => if p.1 = name then (name, val) else p)
  else hs ++ [(name, val)]

/-- The loop `for (const [name, value] of Object.entries(replyHeaders))
this.reply.raw.setHeader(name, value)`. -/
def transferHeaders (reply raw : List (String × String)) :
    List (String × String) :=
  reply.foldl (fun acc p => setHeader acc p.1 p.2) raw

/-- `reply.header(name, value)` on the higher-level Fastify reply object
(only mutates the accumulated reply headers, not the raw sink). -/
def setReplyHeader (s : CtxState) (name val : String) : CtxState :=
  { s with replyHeaders := setHeader s.replyHeaders name val }

/-- `SSEContext.sendHeaders()`: on the first call, transfer the reply
object's headers to the raw response, call `writeHead(200)` and latch
`_headersSent`; afterwards a no-op. -/
def sendHeaders (s : CtxState) : CtxState :=
  if s.headersSent then s
  else
    { s with
      headersSent := true
      raw := { s.raw with
               headers := transferHeaders s.replyHeaders s.raw.headers
               statusWritten := true
               writeHeadCount := s.raw.writeHeadCount + 1 } }

/-- `SSEContext.cleanup()`: stop the heartbeat, invoke every registered
close callback in registration order (each call is wrapped in
`try`/`catch`, so a throwing callback is recorded as invoked and neither
stops the loop nor escapes to the caller — hence this function is total
and ignores the throw flag), then clear the callback list. -/
def cleanup (s : CtxState) : CtxState :=
  { s with
    heartbeatRunning := false
    invoked := s.invoked ++ s.closeCallbacks.map Prod.fst
    closeCallbacks := [] }

/-- `SSEContext.close()`: a no-op when already disconnected; otherwise
mark disconnected, run cleanup, and end the raw response. -/
def close (s : CtxState) : CtxState :=
  if !s.connected then s
  else
    let s1 := cleanup { s with connected := false }
    { s1 with raw := { s1.raw with endCount := s1.raw.endCount + 1 } }

/-- `SSEContext.onClose(callback)`: append the callback to the list. -/
def onClose (s : CtxState) (cb : Nat × Bool) : CtxState :=
  { s with closeCallbacks := s.closeCallbacks ++ [cb] }

/-- `SSEContext.keepAlive()`. -/
def keepAlive (s : CtxState) : CtxState :=
  { s with keepAliveFlag := true }

/-- Which of the two sink notifications fires first while a write is
suspended on backpressure. -/
inductive SinkEvent where
  | drain
  | error (code : String)
deriving DecidableEq, Repr

/-- The disconnection-class error codes recognised by the source:
`UND_ERR_ABORTED`, `ECONNRESET`, `EPIPE`. -/
def disconnectionCode (c : String) : Bool :=
  decide (c = "UND_ERR_ABORTED") || decide (c = "ECONNRESET") || decide (c = "EPIPE")

/-- The two one-shot listeners `writeToStream` registers on the sink. -/
inductive ListenerKind where
  | drain
  | error
deriving DecidableEq, Repr

/-- How the promise returned by `writeToStream` settles. -/
inductive WOutcome where
  | resolved
  | rejectedClosed
  | rejectedErr (code : String)
deriving DecidableEq, Repr

/-- Result of one `writeToStream` call: the context state afterwards, how
the promise settled, and which listeners are still attached to the sink. -/
structure WResult where
  state : CtxState
  outcome : WOutcome
  listeners : List ListenerKind
deriving DecidableEq, Repr

/-- `SSEContext.writeToStream(data)`: reject at once when disconnected;
otherwise send headers lazily, hand the chunk to `raw.write`; when the
sink accepts it immediately, resolve; when it reports saturation, attach
`once('drain')` and `once('error')` and wait.  If `drain` fires, its
one-shot listener is consumed and the handler detaches the error
listener, then resolves.  If `error` fires, its one-shot listener is
consumed and the handler detaches the drain listener; a
disconnection-class error marks the context disconnected, runs cleanup
and resolves; any other error rejects.  `canWrite` is the sink's
immediate answer and `ev` the event that fires during backpressure. -/
def writeToStream (s : CtxState) (data : String) (canWrite : Bool)
    (ev : SinkEvent) : WResult :=
  if !s.connected then
    { state := s, outcome := .rejectedClosed, listeners := [] }
  else
    let s1 := sendHeaders s
    let s2 := { s1 with raw := { s1.raw with written := s1.raw.written ++ [data] } }
    if canWrite then
      { state := s2, outcome := .resolved, listeners := [] }
    else
      let attached : List ListenerKind := [.drain, .error]
      match ev with
      | .drain =>
        { state := s2
          outcome := .resolved
          listeners := (attached.erase .drain).erase .error }
      | .error code =>
        let remaining := (attached.erase .error).erase .drain
        if disconnectionCode code then
          { state := cleanup { s2 with connected := false }
            outcome := .resolved
            listeners := remaining }
        else
          { state := s2, outcome := .rejectedErr code, listeners := remaining }

/-- One tick of the heartbeat interval: while connected, send headers
lazily and write the comment line directly to the sink; once
disconnected, the tick stops the timer. -/
def heartbeatTick (s : CtxState) : CtxState :=
  if s.connected then
    let s1 := sendHeaders s
    { s1 with raw := { s1.raw with written := s1.raw.written ++ [": heartbeat\n\n"] } }
  else { s with heartbeatRunning := false }

/-- `SSEContext.stream()`: throws the connection-closed error when
disconnected, otherwise returns a transform (which mutates no context
state at creation time). -/
def streamCall (s : CtxState) : Except String Unit :=
  if !s.connected then Except.error "SSE connection is closed"
  else Except.ok ()

/-- A JavaScript object as the dispatcher inspects it: the values of the
`id`/`event`/`data`/`retry` property accesses, whether the `data` key is
present at all (`'data' in value`), whether the object is an `instanceof
Readable`, whether it has a `Symbol.asyncIterator` method, and — for
stream/iterable objects — the chunks it yields. -/
structure JsObjVal where
  idVal : JsPrim
  eventVal : JsPrim
  dataVal : JsPrim
  retryVal : JsPrim
  hasData : Bool
  isReadable : Bool
  hasAsyncIterator : Bool
  chunks : List SSEInput
deriving DecidableEq, Repr

/-- A JavaScript value reaching `send`: a primitive, a Buffer, or an
object. -/
inductive JsValue where
  | prim (p : JsPrim)
  | buffer (b : String)
  | object (o : JsObjVal)
deriving DecidableEq, Repr

/-- `typeof source === 'string'`. -/
def isString : JsValue → Bool
  | .prim (.str _) => true
  | _ => false

/-- `Buffer.isBuffer(source)`. -/
def isBuffer : JsValue → Bool
  | .buffer _ => true
  | _ => false

/-- `SSEContext.isSSEMessage(value)`: `typeof value === 'object' && value
!== null && 'data' in value` (note `typeof null === 'object'`, excluded
by the null test). -/
def isSSEMessage : JsValue → Bool
  | .object o => o.hasData
  | _ => false

/-- `source instanceof Readable`. -/
def isReadable : JsValue → Bool
  | .object o => o.isReadable
  | _ => false

/-- `SSEContext.isAsyncIterable(value)`: `value != null && typeof
value[Symbol.asyncIterator] === 'function'`. -/
def isAsyncIterable : JsValue → Bool
  | .object o => o.hasAsyncIterator
  | _ => false

/-- The four paths of the source dispatcher. -/
inductive SendClass where
  | message
  | streamPipe
  | asyncIter
  | invalid
deriving DecidableEq, Repr

/-- The dispatcher's classification, in the exact order of `send`'s
tests: single message first (string / Buffer / object with a `data`
key), then Readable stream, then async iterable, else invalid. -/
def classify (v : JsValue) : SendClass :=
  if isString v || isBuffer v || isSSEMessage v then SendClass.message
  else if isReadable v then SendClass.streamPipe
  else if isAsyncIterable v then SendClass.asyncIter
  else SendClass.invalid

/-- The encoder input for a message-class value (the final catch-all is
unreachable: a bare primitive is never message-class). -/
def toMessageInput : JsValue → SSEInput
  | .prim (.str t) => SSEInput.str t
  | .buffer b => SSEInput.buf b
  | .object o => SSEInput.obj ⟨o.idVal, o.eventVal, o.dataVal, o.retryVal⟩
  | .prim _ => SSEInput.obj ⟨.undef, .undef, .undef, .undef⟩

/-- The chunks a stream or async-iterable source yields. -/
def chunksOf : JsValue → List SSEInput
  | .object o => o.chunks
  | _ => []

/-- The ways `send` can fail. -/
inductive SendError where
  | connectionClosed
  | invalidSource
  | sinkError (code : String)
deriving DecidableEq, Repr

/-- Sink behaviour passed into `send`: the immediate `write` answer and
backpressure event for a single-message write, the per-item behaviours
for an async-iterable source, and the outcome of the stream pipeline
(`none` = completed, `some code` = failed with that error code). -/
structure SendEnv where
  canWrite : Bool
  ev : SinkEvent
  itemWrites : List (Bool × SinkEvent)
  pipeResult : Option String
deriving DecidableEq, Repr

/-- Pair each yielded item with its sink behaviour (defaulting to an
immediately accepted write once the supplied list runs out). -/
def iterPlan : List SSEInput → List (Bool × SinkEvent) →
    List (SSEInput × Bool × SinkEvent)
  | [], _ => []
  | i :: is, [] => (i, true, SinkEvent.drain) :: iterPlan is []
  | i :: is, w :: ws => (i, w.1, w.2) :: iterPlan is ws

/-- The `for await (const chunk of source)` loop of `send`: before each
item, break (without error) when the context is no longer connected;
otherwise format the chunk and await `writeToStream`; a rejected write
propagates out of the loop as `send`'s failure.  Each list entry is one
item together with the sink's behaviour for its write, so the write of
item N completes before item N+1 is examined. -/
def sendIter (ser : JsPrim → String) :
    CtxState → List (SSEInput × Bool × SinkEvent) → CtxState × Option SendError
  | s, [] => (s, none)
  | s, (chunk, cw, ev) :: rest =>
    if !s.connected then (s, none)
    else
      let w := writeToStream s (formatSSEMessage chunk ser) cw ev
      match w.outcome with
      | .resolved => sendIter ser w.state rest
      | .rejectedClosed => (w.state, some SendError.connectionClosed)
      | .rejectedErr c => (w.state, some (SendError.sinkError c))

/-- `SSEContext.send(source)`: throw when disconnected; a string, Buffer
or `data`-keyed object is formatted and written with backpressure
handling; a Readable is piped through the SSE transform into the sink
(headers sent eagerly, sink not ended), a disconnection-class pipeline
failure being swallowed after marking disconnected and cleaning up, any
other failure propagating; an async iterable is iterated one item at a
time; anything else is an invalid-source `TypeError`, raised before any
sink interaction. -/
def send (ser : JsPrim → String) (s : CtxState) (v : JsValue)
    (env : SendEnv) : CtxState × Option SendError :=
  if !s.connected then (s, some SendError.connectionClosed)
  else if isString v || isBuffer v || isSSEMessage v then
    let w := writeToStream s (formatSSEMessage (toMessageInput v) ser)
      env.canWrite env.ev
    (w.state,
      match w.outcome with
      | .resolved => none
      | .rejectedClosed => some SendError.connectionClosed
      | .rejectedErr c => some (SendError.sinkError c))
  else if isReadable v then
    let s1 := sendHeaders s
    let s2 := { s1 with raw := { s1.raw with
      written := s1.raw.written ++ (chunksOf v).map (fun c => formatSSEMessage c ser) } }
    match env.pipeResult with
    | none => (s2, none)
    | some code =>
      if disconnectionCode code then (cleanup { s2 with connected := false }, none)
      else (s2, some (SendError.sinkError code))
  else if isAsyncIterable v then
    sendIter ser s (iterPlan (chunksOf v) env.itemWrites)
  else (s, some SendError.invalidSource)

/-- Every operation that can touch an `SSEContext`'s state: the public
methods, the raw sink's own `close` and `error` notifications (the
handlers installed by the constructor), and a heartbeat tick. -/
inductive Op where
  | closeOp
  | keepAliveOp
  | onCloseOp (cb : Nat × Bool)
  | sendHeadersOp
  | setReplyHeaderOp (name val : String)
  | writeOp (data : String) (canWrite : Bool) (ev : SinkEvent)
  | sendOp (ser : JsPrim → String) (v : JsValue) (env : SendEnv)
  | streamOp
  | replayOp
  | sinkCloseEvent
  | sinkErrorEvent (code : String)
  | heartbeatTickOp

/-- The state transition of each operation.  `stream()` and `replay()`
do not mutate context state; the constructor's `on('close')` handler
marks disconnected and cleans up; its `on('error')` handler does so for
disconnection-class errors and only logs anything else. -/
def applyOp : Op → CtxState → CtxState
  | .closeOp, s => close s
  | .keepAliveOp, s => keepAlive s
  | .onCloseOp cb, s => onClose s cb
  | .sendHeadersOp, s => sendHeaders s
  | .setReplyHeaderOp n v, s => setReplyHeader s n v
  | .writeOp d cw ev, s => (writeToStream s d cw ev).state
  | .sendOp ser v env, s => (send ser s v env).1
  | .streamOp, s => s
  | .replayOp, s => s
  | .sinkCloseEvent, s => cleanup { s with connected := false }
  | .sinkErrorEvent code, s =>
    if disconnectionCode code then cleanup { s with connected := false } else s
  | .heartbeatTickOp, s => heartbeatTick s

/-! ## Helper lemmas -/

theorem str_eq_empty_of_length (s : String) (h : s.length = 0) : s = "" := by
  cases s with
  | mk data =>
    simp [String.length] at h
    subst h
    rfl

theorem append_ne_empty_right (a b : String) (hb : b ≠ "") : a ++ b ≠ "" := by
  intro h
  apply hb
  have hl : (a ++ b).length = 0 := by rw [h]; rfl
  rw [String.length_append] at hl
  exact str_eq_empty_of_length b (Nat.eq_zero_of_add_eq_zero_left hl)

theorem truthy_undef : JsPrim.truthy .undef = false := rfl

theorem splitNl_ne_nil (cs : List Char) : splitNl cs ≠ [] := by
  induction cs with
  | nil => simp [splitNl]
  | cons c cs ih =>
    simp only [splitNl]
    split
    · simp
    · split
      · simp
      · simp

theorem splitLines_length_pos (s : String) : 1 ≤ (splitLines s).length := by
  have h := splitNl_ne_nil s.data
  have h2 : 0 < (splitNl s.data).length := List.length_pos.mpr h
  simpa [splitLines] using h2

theorem dataLines_ne_empty (s : String) : dataLines s ≠ "" := by
  have h := splitNl_ne_nil s.data
  unfold dataLines splitLines
  cases hsp : splitNl s.data with
  | nil => exact absurd hsp h
  | cons l ls =>
    simp only [List.map_cons, dataLinesList]
    intro he
    have hl := congrArg String.length he
    simp [String.length_append] at hl
    exact absurd hl.1.2 (by decide)

/-- Encoding of a full message object: the four segments in source
order, then the blank-line terminator. -/
theorem format_obj_full (o : SSEObject) (ser : JsPrim → String)
    (hid : o.id.truthy = true) (hev : o.event.truthy = true)
    (hrt : o.retry.truthy = true) (hd : o.data ≠ JsPrim.undef) :
    formatSSEMessage (.obj o) ser =
      (("id: " ++ o.id.toStr ++ "\n")
        ++ ("event: " ++ o.event.toStr ++ "\n")
        ++ dataLines (ser o.data)
        ++ ("retry: " ++ o.retry.toStr ++ "\n")) ++ "\n" := by
  simp only [formatSSEMessage, hid, hev, hrt, hd, ne_eq, not_false_eq_true, ite_true, if_true]
  rw [if_neg]
  exact append_ne_empty_right _ _ (append_ne_empty_right _ _ (by decide))

/-- Encoding of a message object carrying only a defined `data` value. -/
theorem format_obj_data_only (d : JsPrim) (ser : JsPrim → String)
    (hd : d ≠ JsPrim.undef) :
    formatSSEMessage (.obj ⟨.undef, .undef, d, .undef⟩) ser =
      dataLines (ser d) ++ "\n" := by
  simp only [formatSSEMessage, truthy_undef, Bool.false_eq_true, if_false, ne_eq, hd,
    not_false_eq_true, ite_true]
  rw [String.empty_append, String.empty_append, String.append_empty,
    if_neg (dataLines_ne_empty _)]

/-- Encoding of a plain string payload. -/
theorem format_str (t : String) (ser : JsPrim → String) :
    formatSSEMessage (.str t) ser = dataLines t ++ "\n" := by
  simp only [formatSSEMessage]
  rw [if_neg (dataLines_ne_empty _)]

/-- Encoding of a Buffer payload. -/
theorem format_buf (b : String) (ser : JsPrim → String) :
    formatSSEMessage (.buf b) ser = dataLines b ++ "\n" := by
  simp only [formatSSEMessage]
  rw [if_neg (dataLines_ne_empty _)]

/-! ## Claims about the encoder -/

/-- C1: for a message object whose `id`, `event` and `retry` are present
and truthy and whose `data` is defined, the encoder emits the `id:`
line, the `event:` line, one or more `data:` lines (at least one, since
splitting always yields at least one segment), and the `retry:` line, in
that fixed order, followed by exactly one blank line; a falsy `retry` is
never emitted (the output equals that of the same message without a
retry field); and an entirely empty message encodes to the empty string
with no terminator. -/
theorem format_field_order_and_terminator :
    (∀ (o : SSEObject) (ser : JsPrim → String),
      o.id.truthy = true → o.event.truthy = true → o.retry.truthy = true →
      o.data ≠ JsPrim.undef →
      formatSSEMessage (.obj o) ser =
        (("id: " ++ o.id.toStr ++ "\n")
          ++ ("event: " ++ o.event.toStr ++ "\n")
          ++ dataLines (ser o.data)
          ++ ("retry: " ++ o.retry.toStr ++ "\n")) ++ "\n"
      ∧ 1 ≤ (splitLines (ser o.data)).length)
    ∧ (∀ (o : SSEObject) (ser : JsPrim → String), o.retry.truthy = false →
        formatSSEMessage (.obj o) ser =
          formatSSEMessage (.obj { o with retry := JsPrim.undef }) ser)
    ∧ (∀ ser : JsPrim → String,
        formatSSEMessage (.obj ⟨.undef, .undef, .undef, .undef⟩) ser = "") := by
  refine ⟨fun o ser hid hev hrt hd => ⟨format_obj_full o ser hid hev hrt hd,
    splitLines_length_pos _⟩, fun o ser hrt => ?_, fun ser => rfl⟩
  simp only [formatSSEMessage, hrt, truthy_undef, Bool.false_eq_true, if_false]

/-- Witness for C1 at a concrete message with id "1", event "greet",
data "x" and retry 5, under the default serializer. -/
theorem format_field_order_and_terminator_witness :
    formatSSEMessage (.obj ⟨.str "1", .str "greet", .str "x", .num 5⟩) jsonStringify =
      (("id: " ++ (JsPrim.str "1").toStr ++ "\n")
        ++ ("event: " ++ (JsPrim.str "greet").toStr ++ "\n")
        ++ dataLines (jsonStringify (.str "x"))
        ++ ("retry: " ++ (JsPrim.num 5).toStr ++ "\n")) ++ "\n"
    ∧ 1 ≤ (splitLines (jsonStringify (.str "x"))).length :=
  format_field_order_and_terminator.1 ⟨.str "1", .str "greet", .str "x", .num 5⟩
    jsonStringify (by decide) (by decide) (by decide) (by decide)

/-- C6: a defined `data` value is always run through the serializer —
even when it is already a string — and the serializer's output is then
split on newlines, one `data:` line per segment (so a serializer output
with an embedded newline yields two consecutive `data:` lines); with the
default JSON serializer, a message with only data `"hello"` encodes to
exactly `data: "hello"\n\n`. -/
theorem format_serializes_then_splits :
    (∀ (t : String) (ser : JsPrim → String),
      formatSSEMessage (.obj ⟨.undef, .undef, .str t, .undef⟩) ser =
        dataLines (ser (.str t)) ++ "\n")
    ∧ (∀ (t : String) (ser : JsPrim → String), ser (.str t) = "line1\nline2" →
        formatSSEMessage (.obj ⟨.undef, .undef, .str t, .undef⟩) ser =
          "data: line1\ndata: line2\n\n")
    ∧ formatSSEMessage (.obj ⟨.undef, .undef, .str "hello", .undef⟩) jsonStringify =
        "data: \"hello\"\n\n" := by
  refine ⟨fun t ser => format_obj_data_only (.str t) ser (by simp),
    fun t ser h => ?_, by decide⟩
  rw [format_obj_data_only (.str t) ser (by simp), h]
  decide

/-- Witness for C6 at a serializer whose output on the concrete input
contains an embedded newline. -/
theorem format_serializes_then_splits_witness :
    formatSSEMessage (.obj ⟨.undef, .undef, .str "x", .undef⟩)
        (fun _ => "line1\nline2") = "data: line1\ndata: line2\n\n" :=
  format_serializes_then_splits.2.1 "x" (fun _ => "line1\nline2") rfl

/-- C7: a plain string or Buffer payload is split on newlines into
`data:` lines only — no `id:`/`event:`/`retry:` field and no serializer
application — and the raw string "plain text message" encodes to exactly
`data: plain text message\n\n`, with no JSON quoting even under the
default JSON serializer. -/
theorem format_raw_payload :
    (∀ (t : String) (ser : JsPrim → String),
      formatSSEMessage (.str t) ser = dataLines t ++ "\n")
    ∧ (∀ (b : String) (ser : JsPrim → String),
      formatSSEMessage (.buf b) ser = dataLines b ++ "\n")
    ∧ formatSSEMessage (.str "plain text message") jsonStringify =
        "data: plain text message\n\n" :=
  ⟨format_str, format_buf, by decide⟩

/-! ## Helper lemmas about the context state machine -/

theorem sendHeaders_headersSent (s : CtxState) : (sendHeaders s).headersSent = true := by
  simp only [sendHeaders]
  split
  · assumption
  · rfl

theorem sendHeaders_connected (s : CtxState) : (sendHeaders s).connected = s.connected := by
  simp only [sendHeaders]; split <;> rfl

theorem sendHeaders_invoked (s : CtxState) : (sendHeaders s).invoked = s.invoked := by
  simp only [sendHeaders]; split <;> rfl

theorem sendHeaders_closeCallbacks (s : CtxState) :
    (sendHeaders s).closeCallbacks = s.closeCallbacks := by
  simp only [sendHeaders]; split <;> rfl

theorem sendHeaders_heartbeat (s : CtxState) :
    (sendHeaders s).heartbeatRunning = s.heartbeatRunning := by
  simp only [sendHeaders]; split <;> rfl

theorem sendHeaders_written (s : CtxState) : (sendHeaders s).raw.written = s.raw.written := by
  simp only [sendHeaders]; split <;> rfl

theorem sendHeaders_idem_lemma (s : CtxState) :
    sendHeaders (sendHeaders s) = sendHeaders s := by
  have h := sendHeaders_headersSent s
  simp only [sendHeaders] at h ⊢
  split
  · rfl
  · split at h
    · simp_all
    · simp_all [sendHeaders]

theorem sendHeaders_noop (x : CtxState) (h : x.headersSent = true) :
    sendHeaders x = x := by
  simp [sendHeaders, h]

theorem cleanup_raw (s : CtxState) : (cleanup s).raw = s.raw := rfl

theorem join_append_last (l : List String) (x : String) :
    String.join (l ++ [x]) = String.join l ++ x := by
  simp [String.join, List.foldl_append]

/-- Encoding of a message object all of whose emitting conditions fail. -/
theorem format_all_absent (o : SSEObject) (ser : JsPrim → String)
    (hid : o.id.truthy = false) (hev : o.event.truthy = false)
    (hrt : o.retry.truthy = false) (hd : o.data = JsPrim.undef) :
    formatSSEMessage (.obj o) ser = "" := by
  simp [formatSSEMessage, hid, hev, hrt, hd]

/-- A backpressure write whose sink behaviour is benign (immediate
acceptance, a drain, or a disconnection-class error) resolves, and the
chunk was handed to the sink. -/
theorem wts_ok (s : CtxState) (d : String) (cw : Bool) (ev : SinkEvent)
    (h : s.connected = true)
    (hok : cw = true ∨ ev = SinkEvent.drain ∨
      ∃ c, ev = SinkEvent.error c ∧ disconnectionCode c = true) :
    (writeToStream s d cw ev).outcome = WOutcome.resolved ∧
    (writeToStream s d cw ev).state.raw.written = s.raw.written ++ [d] := by
  rcases hok with hcw | hdr | ⟨c, hec, hdc⟩
  · subst hcw
    simp [writeToStream, h, sendHeaders_written]
  · subst hdr
    cases cw <;> simp [writeToStream, h, sendHeaders_written]
  · subst hec
    cases cw <;> simp [writeToStream, h, hdc, cleanup_raw, sendHeaders_written]

/-- A per-item sink behaviour that cannot make the item's write reject:
the write is accepted immediately, or the backpressure wait ends in a
drain or a disconnection-class error. -/
def itemOk (cw : Bool) (ev : SinkEvent) : Bool :=
  cw ||
    match ev with
    | .drain => true
    | .error c => disconnectionCode c

theorem itemOk_cases (cw : Bool) (ev : SinkEvent) (h : itemOk cw ev = true) :
    cw = true ∨ ev = SinkEvent.drain ∨
      ∃ c, ev = SinkEvent.error c ∧ disconnectionCode c = true := by
  cases cw with
  | true => exact Or.inl rfl
  | false =>
    cases ev with
    | drain => exact Or.inr (Or.inl rfl)
    | error c =>
      refine Or.inr (Or.inr ⟨c, rfl, ?_⟩)
      simpa [itemOk] using h

/-! ## Claims about the connection state machine -/

/-- C2: the `connected` flag is monotone — a fresh context starts
connected, and no operation of the context (public method, sink
notification handler, or heartbeat tick) ever turns `connected` back on
once it is off; and while disconnected, `send`, `stream()` and
`writeToStream` all fail fast with the connection-closed error, leaving
the state (in particular the sink) untouched. -/
theorem connected_monotone_and_fail_fast :
    (∀ (lei : Option String) (hb : Nat) (rh : List (String × String)),
      (mkContext lei hb rh).connected = true)
    ∧ (∀ (op : Op) (s : CtxState), s.connected = false →
        (applyOp op s).connected = false)
    ∧ (∀ (ser : JsPrim → String) (s : CtxState) (v : JsValue) (env : SendEnv),
        s.connected = false →
        send ser s v env = (s, some SendError.connectionClosed))
    ∧ (∀ s : CtxState, s.connected = false →
        streamCall s = Except.error "SSE connection is closed")
    ∧ (∀ (s : CtxState) (d : String) (cw : Bool) (ev : SinkEvent),
        s.connected = false →
        writeToStream s d cw ev =
          { state := s, outcome := WOutcome.rejectedClosed, listeners := [] }) := by
  refine ⟨fun lei hb rh => rfl, fun op s h => ?_, fun ser s v env h => by simp [send, h],
    fun s h => by simp [streamCall, h], fun s d cw ev h => by simp [writeToStream, h]⟩
  cases op with
  | closeOp => simp [applyOp, close, h]
  | keepAliveOp => simp [applyOp, keepAlive, h]
  | onCloseOp cb => simp [applyOp, onClose, h]
  | sendHeadersOp => simp [applyOp, sendHeaders_connected, h]
  | setReplyHeaderOp n v => simp [applyOp, setReplyHeader, h]
  | writeOp d cw ev => simp [applyOp, writeToStream, h]
  | sendOp ser v env => simp [applyOp, send, h]
  | streamOp => simpa [applyOp] using h
  | replayOp => simpa [applyOp] using h
  | sinkCloseEvent => simp [applyOp, cleanup]
  | sinkErrorEvent code =>
    simp only [applyOp]
    split
    · simp [cleanup]
    · exact h
  | heartbeatTickOp => simp [applyOp, heartbeatTick, h]

/-- Witness for C2: a freshly constructed context is connected; after
`close()` the flag stays off under a further write, and `send` /
`stream()` / `writeToStream` fail fast on the closed context. -/
theorem connected_monotone_and_fail_fast_witness :
    (mkContext (some "7") 30000 [("x-demo", "1")]).connected = true
    ∧ (applyOp (Op.writeOp "data: hi\n\n" true SinkEvent.drain)
        (close (mkContext (some "7") 30000 [("x-demo", "1")]))).connected = false
    ∧ send jsonStringify (close (mkContext (some "7") 30000 [("x-demo", "1")]))
        (.prim (.str "hi")) ⟨true, SinkEvent.drain, [], none⟩ =
        (close (mkContext (some "7") 30000 [("x-demo", "1")]),
          some SendError.connectionClosed)
    ∧ streamCall (close (mkContext (some "7") 30000 [("x-demo", "1")])) =
        Except.error "SSE connection is closed" :=
  ⟨connected_monotone_and_fail_fast.1 (some "7") 30000 [("x-demo", "1")],
   connected_monotone_and_fail_fast.2.1 _ _ (by decide),
   connected_monotone_and_fail_fast.2.2.1 jsonStringify _ _ _ (by decide),
   connected_monotone_and_fail_fast.2.2.2.1 _ (by decide)⟩

/-- C3: a write suspended on backpressure resolves on a drain
notification; on a disconnection-class error it marks the context
disconnected, runs cleanup (heartbeat stopped, close callbacks invoked
and cleared) and resolves rather than failing; on any other error it
rejects with that error; and in every outcome both one-shot listeners
are off the sink (the one that fired was consumed, the other was
explicitly detached). -/
theorem writeToStream_backpressure :
    (∀ (s : CtxState) (d : String), s.connected = true →
      (writeToStream s d false SinkEvent.drain).outcome = WOutcome.resolved ∧
      (writeToStream s d false SinkEvent.drain).listeners = [])
    ∧ (∀ (s : CtxState) (d c : String), s.connected = true →
        disconnectionCode c = true →
        (writeToStream s d false (SinkEvent.error c)).outcome = WOutcome.resolved ∧
        (writeToStream s d false (SinkEvent.error c)).state.connected = false ∧
        (writeToStream s d false (SinkEvent.error c)).state.heartbeatRunning = false ∧
        (writeToStream s d false (SinkEvent.error c)).state.invoked =
          s.invoked ++ s.closeCallbacks.map Prod.fst ∧
        (writeToStream s d false (SinkEvent.error c)).state.closeCallbacks = [] ∧
        (writeToStream s d false (SinkEvent.error c)).listeners = [])
    ∧ (∀ (s : CtxState) (d c : String), s.connected = true →
        disconnectionCode c = false →
        (writeToStream s d false (SinkEvent.error c)).outcome = WOutcome.rejectedErr c ∧
        (writeToStream s d false (SinkEvent.error c)).listeners = []) := by
  refine ⟨fun s d h => ?_, fun s d c h hc => ?_, fun s d c h hc => ?_⟩
  · simp [writeToStream, h, List.erase]
  · simp [writeToStream, h, hc, cleanup, sendHeaders_invoked, sendHeaders_closeCallbacks,
      List.erase]
  · simp [writeToStream, h, hc, List.erase]

/-- Witness for C3 at a connected context with two registered callbacks,
a saturated sink and an `ECONNRESET` during the wait. -/
theorem writeToStream_backpressure_witness :
    (writeToStream (onClose (onClose (mkContext (some "7") 30000 [("x-demo", "1")])
        (1, false)) (2, true)) "data: a\n\n" false (SinkEvent.error "ECONNRESET")).outcome =
      WOutcome.resolved
    ∧ (writeToStream (onClose (onClose (mkContext (some "7") 30000 [("x-demo", "1")])
        (1, false)) (2, true)) "data: a\n\n" false
        (SinkEvent.error "ECONNRESET")).state.connected = false
    ∧ (writeToStream (onClose (onClose (mkContext (some "7") 30000 [("x-demo", "1")])
        (1, false)) (2, true)) "data: a\n\n" false
        (SinkEvent.error "ECONNRESET")).state.heartbeatRunning = false
    ∧ (writeToStream (onClose (onClose (mkContext (some "7") 30000 [("x-demo", "1")])
        (1, false)) (2, true)) "data: a\n\n" false
        (SinkEvent.error "ECONNRESET")).state.invoked =
        (onClose (onClose (mkContext (some "7") 30000 [("x-demo", "1")])
          (1, false)) (2, true)).invoked ++
        (onClose (onClose (mkContext (some "7") 30000 [("x-demo", "1")])
          (1, false)) (2, true)).closeCallbacks.map Prod.fst
    ∧ (writeToStream (onClose (onClose (mkContext (some "7") 30000 [("x-demo", "1")])
        (1, false)) (2, true)) "data: a\n\n" false
        (SinkEvent.error "ECONNRESET")).state.closeCallbacks = []
    ∧ (writeToStream (onClose (onClose (mkContext (some "7") 30000 [("x-demo", "1")])
        (1, false)) (2, true)) "data: a\n\n" false
        (SinkEvent.error "ECONNRESET")).listeners = [] :=
  writeToStream_backpressure.2.1 _ "data: a\n\n" "ECONNRESET" (by decide) (by decide)

/-- C4: `close()` is idempotent — a second call changes nothing — and on
a connected context one call marks it disconnected, stops the heartbeat,
invokes every registered close callback exactly once in registration
order (including callbacks that throw, whose exception is caught), and
ends the sink exactly once. -/
theorem close_idempotent :
    (∀ s : CtxState, close (close s) = close s)
    ∧ (∀ s : CtxState, s.connected = true →
        (close s).connected = false ∧
        (close s).heartbeatRunning = false ∧
        (close s).invoked = s.invoked ++ s.closeCallbacks.map Prod.fst ∧
        (close s).closeCallbacks = [] ∧
        (close s).raw.endCount = s.raw.endCount + 1 ∧
        ∀ cb ∈ s.closeCallbacks, cb.2 = true → cb.1 ∈ (close s).invoked) := by
  constructor
  · intro s
    by_cases h : s.connected
    · simp [close, h, cleanup]
    · simp [close, h]
  · intro s h
    refine ⟨by simp [close, h, cleanup], by simp [close, h, cleanup],
      by simp [close, h, cleanup], by simp [close, h, cleanup],
      by simp [close, h, cleanup], fun cb hcb _ => ?_⟩
    have : (close s).invoked = s.invoked ++ s.closeCallbacks.map Prod.fst := by
      simp [close, h, cleanup]
    rw [this]
    exact List.mem_append_right _ (List.mem_map_of_mem Prod.fst hcb)

/-- Witness for C4 at a connected context with a well-behaved callback
and a throwing callback registered. -/
theorem close_idempotent_witness :
    (onClose (onClose (mkContext (some "7") 30000 [("x-demo", "1")])
        (1, false)) (2, true)).connected = true
    ∧ (close (onClose (onClose (mkContext (some "7") 30000 [("x-demo", "1")])
        (1, false)) (2, true))).connected = false
    ∧ (close (onClose (onClose (mkContext (some "7") 30000 [("x-demo", "1")])
        (1, false)) (2, true))).heartbeatRunning = false
    ∧ (close (onClose (onClose (mkContext (some "7") 30000 [("x-demo", "1")])
        (1, false)) (2, true))).invoked =
        (onClose (onClose (mkContext (some "7") 30000 [("x-demo", "1")])
          (1, false)) (2, true)).invoked ++
        (onClose (onClose (mkContext (some "7") 30000 [("x-demo", "1")])
          (1, false)) (2, true)).closeCallbacks.map Prod.fst
    ∧ close (close (onClose (onClose (mkContext (some "7") 30000 [("x-demo", "1")])
        (1, false)) (2, true))) =
      close (onClose (onClose (mkContext (some "7") 30000 [("x-demo", "1")])
        (1, false)) (2, true)) := by
  have h2 := close_idempotent.2 (onClose (onClose (mkContext (some "7") 30000
    [("x-demo", "1")]) (1, false)) (2, true)) (by decide)
  exact ⟨by decide, h2.1, h2.2.1, h2.2.2.1, close_idempotent.1 _⟩

/-- C5: `sendHeaders()` is idempotent — N calls (N ≥ 1) equal one call —
and the one effective call transfers the reply object's accumulated
headers into the sink and writes the status exactly once; a header set
on the reply object after the first call never reaches the raw
response. -/
theorem sendHeaders_idempotent :
    (∀ (s : CtxState) (n : Nat), 1 ≤ n → sendHeaders^[n] s = sendHeaders s)
    ∧ (∀ s : CtxState, s.headersSent = false →
        (sendHeaders s).raw.headers = transferHeaders s.replyHeaders s.raw.headers ∧
        (sendHeaders s).raw.statusWritten = true ∧
        (sendHeaders s).raw.writeHeadCount = s.raw.writeHeadCount + 1 ∧
        (sendHeaders s).headersSent = true)
    ∧ (∀ (s : CtxState) (name val : String),
        (sendHeaders (setReplyHeader (sendHeaders s) name val)).raw =
          (sendHeaders s).raw) := by
  refine ⟨fun s n h => ?_, fun s h => by simp [sendHeaders, h], fun s name val => ?_⟩
  · induction n with
    | zero => omega
    | succ m ih =>
      rw [Function.iterate_succ_apply']
      cases Nat.eq_zero_or_pos m with
      | inl h0 => subst h0; simp
      | inr hp => rw [ih hp, sendHeaders_idem_lemma]
  · have h2 : (setReplyHeader (sendHeaders s) name val).headersSent = true := by
      simpa [setReplyHeader] using sendHeaders_headersSent s
    rw [sendHeaders_noop _ h2]
    rfl

/-- Witness for C5: three calls equal one on a fresh context, and a
header set after the first call is absent from the raw response. -/
theorem sendHeaders_idempotent_witness :
    sendHeaders^[3] (mkContext (some "7") 30000 [("x-demo", "1")]) =
      sendHeaders (mkContext (some "7") 30000 [("x-demo", "1")])
    ∧ (sendHeaders (setReplyHeader
        (sendHeaders (mkContext (some "7") 30000 [("x-demo", "1")])) "late" "2")).raw =
      (sendHeaders (mkContext (some "7") 30000 [("x-demo", "1")])).raw :=
  ⟨sendHeaders_idempotent.1 _ 3 (by decide),
   sendHeaders_idempotent.2.2 _ "late" "2"⟩

/-- C8: the async-iterable loop of `send` handles items strictly one at
a time in source order — the sink's chunk sequence extends by the
formatted items in exactly list order, with the write of each item
completed before the next list entry is examined — and under benign sink
behaviour (each item's write accepted, drained, or ended by a
disconnection-class error) it never reports an error to the caller and
stops writing at the first disconnection: the chunks written are a
prefix of the items, and a proper prefix only when the context ended
disconnected. -/
theorem sendIter_sequential :
    ∀ (ser : JsPrim → String) (plan : List (SSEInput × Bool × SinkEvent))
      (s : CtxState),
    (∀ it ∈ plan, itemOk it.2.1 it.2.2 = true) →
    (sendIter ser s plan).2 = none ∧
    ∃ k ≤ plan.length,
      (sendIter ser s plan).1.raw.written =
        s.raw.written ++ (plan.take k).map (fun it => formatSSEMessage it.1 ser) ∧
      (k < plan.length → (sendIter ser s plan).1.connected = false) := by
  intro ser plan
  induction plan with
  | nil =>
    intro s _
    exact ⟨rfl, 0, Nat.le_refl 0, by simp [sendIter], by simp⟩
  | cons hd rest ih =>
    intro s hp
    obtain ⟨chunk, cw, ev⟩ := hd
    by_cases hc : s.connected
    · have hok := itemOk_cases cw ev (hp (chunk, cw, ev) (List.mem_cons_self _ _))
      have hw := wts_ok s (formatSSEMessage chunk ser) cw ev hc hok
      have hrest := ih (writeToStream s (formatSSEMessage chunk ser) cw ev).state
        (fun it hit => hp it (List.mem_cons_of_mem _ hit))
      obtain ⟨hres, k, hk, hwr, hcon⟩ := hrest
      have hstep : sendIter ser s ((chunk, cw, ev) :: rest) =
          sendIter ser (writeToStream s (formatSSEMessage chunk ser) cw ev).state rest := by
        simp only [sendIter, hc, Bool.not_true, Bool.false_eq_true, if_false]
        rw [hw.1]
      refine ⟨by rw [hstep]; exact hres, k + 1, by simpa using Nat.succ_le_succ hk, ?_, ?_⟩
      · rw [hstep, hwr, hw.2]
        simp [List.append_assoc]
      · intro hlt
        rw [hstep]
        exact hcon (by simpa using Nat.lt_of_succ_lt_succ hlt)
    · have hcf : s.connected = false := by simpa using hc
      refine ⟨by simp [sendIter, hcf], 0, Nat.zero_le _, by simp [sendIter, hcf], ?_⟩
      intro _
      simp [sendIter, hcf]

/-- Witness for C8: three items where the second write ends in an
`EPIPE` during backpressure; no error surfaces and the write log is a
prefix of the items. -/
theorem sendIter_sequential_witness :
    (sendIter jsonStringify (mkContext (some "7") 30000 [("x-demo", "1")])
      [(SSEInput.str "a", true, SinkEvent.drain),
       (SSEInput.str "b", false, SinkEvent.error "EPIPE"),
       (SSEInput.str "c", true, SinkEvent.drain)]).2 = none
    ∧ ∃ k ≤ ([(SSEInput.str "a", true, SinkEvent.drain),
       (SSEInput.str "b", false, SinkEvent.error "EPIPE"),
       (SSEInput.str "c", true, SinkEvent.drain)] :
        List (SSEInput × Bool × SinkEvent)).length,
      (sendIter jsonStringify (mkContext (some "7") 30000 [("x-demo", "1")])
        [(SSEInput.str "a", true, SinkEvent.drain),
         (SSEInput.str "b", false, SinkEvent.error "EPIPE"),
         (SSEInput.str "c", true, SinkEvent.drain)]).1.raw.written =
        (mkContext (some "7") 30000 [("x-demo", "1")]).raw.written ++
        (([(SSEInput.str "a", true, SinkEvent.drain),
           (SSEInput.str "b", false, SinkEvent.error "EPIPE"),
           (SSEInput.str "c", true, SinkEvent.drain)] :
          List (SSEInput × Bool × SinkEvent)).take k).map
          (fun it => formatSSEMessage it.1 jsonStringify) ∧
      (k < ([(SSEInput.str "a", true, SinkEvent.drain),
             (SSEInput.str "b", false, SinkEvent.error "EPIPE"),
             (SSEInput.str "c", true, SinkEvent.drain)] :
            List (SSEInput × Bool × SinkEvent)).length →
        (sendIter jsonStringify (mkContext (some "7") 30000 [("x-demo", "1")])
          [(SSEInput.str "a", true, SinkEvent.drain),
           (SSEInput.str "b", false, SinkEvent.error "EPIPE"),
           (SSEInput.str "c", true, SinkEvent.drain)]).1.connected = false) :=
  sendIter_sequential jsonStringify _ _ (by decide)

/-- C9: a `send` argument that is not a string, not a Buffer, not a
non-null object with a `data` key, not a Readable and not an async
iterable is classified invalid, and on a live connection `send` fails
with the invalid-source error leaving the state — in particular the sink
— untouched (the error is raised before any write). -/
theorem send_invalid_source :
    ∀ (ser : JsPrim → String) (s : CtxState) (v : JsValue) (env : SendEnv),
    s.connected = true →
    isString v = false → isBuffer v = false → isSSEMessage v = false →
    isReadable v = false → isAsyncIterable v = false →
    classify v = SendClass.invalid ∧
    send ser s v env = (s, some SendError.invalidSource) := by
  intro ser s v env h h1 h2 h3 h4 h5
  exact ⟨by simp [classify, h1, h2, h3, h4, h5],
    by simp [send, h, h1, h2, h3, h4, h5]⟩

/-- Witness for C9 at the number `42` as source. -/
theorem send_invalid_source_witness :
    classify (.prim (.num 42)) = SendClass.invalid ∧
    send jsonStringify (mkContext (some "7") 30000 [("x-demo", "1")])
        (.prim (.num 42)) ⟨true, SinkEvent.drain, [], none⟩ =
      (mkContext (some "7") 30000 [("x-demo", "1")], some SendError.invalidSource) :=
  send_invalid_source jsonStringify _ _ _ (by decide) (by decide) (by decide)
    (by decide) (by decide) (by decide)

/-- C10: an object whose `data` key is present but maps to `undefined`
(with no truthy `id`, `event` or `retry`) is classified as a single
message by key presence, while the encoder — which tests value
definedness — emits nothing, so `send` succeeds and the byte stream
handed to the sink is unchanged. -/
theorem send_data_key_undefined :
    ∀ (ser : JsPrim → String) (s : CtxState) (o : JsObjVal) (env : SendEnv),
    s.connected = true → env.canWrite = true →
    o.hasData = true → o.dataVal = JsPrim.undef →
    o.idVal.truthy = false → o.eventVal.truthy = false → o.retryVal.truthy = false →
    classify (.object o) = SendClass.message ∧
    formatSSEMessage (.obj ⟨o.idVal, o.eventVal, o.dataVal, o.retryVal⟩) ser = "" ∧
    (send ser s (.object o) env).2 = none ∧
    String.join (send ser s (.object o) env).1.raw.written =
      String.join s.raw.written := by
  intro ser s o env h hcw hhas hdu hid hev hrt
  have hfmt : formatSSEMessage (.obj ⟨o.idVal, o.eventVal, o.dataVal, o.retryVal⟩) ser = "" :=
    format_all_absent _ ser hid hev hrt hdu
  refine ⟨by simp [classify, isSSEMessage, hhas], hfmt, ?_, ?_⟩
  · simp [send, h, isSSEMessage, hhas, toMessageInput, hfmt, writeToStream, hcw]
  · simp [send, h, isSSEMessage, hhas, toMessageInput, hfmt, writeToStream, hcw,
      sendHeaders_written, join_append_last]

/-- Witness for C10 at the object `\x7b data: undefined \x7d`. -/
theorem send_data_key_undefined_witness :
    classify (.object ⟨.undef, .undef, .undef, .undef, true, false, false, []⟩) =
      SendClass.message
    ∧ formatSSEMessage (.obj ⟨.undef, .undef, .undef, .undef⟩) jsonStringify = ""
    ∧ (send jsonStringify (mkContext (some "7") 30000 [("x-demo", "1")])
        (.object ⟨.undef, .undef, .undef, .undef, true, false, false, []⟩)
        ⟨true, SinkEvent.drain, [], none⟩).2 = none
    ∧ String.join (send jsonStringify (mkContext (some "7") 30000 [("x-demo", "1")])
        (.object ⟨.undef, .undef, .undef, .undef, true, false, false, []⟩)
        ⟨true, SinkEvent.drain, [], none⟩).1.raw.written =
      String.join (mkContext (some "7") 30000 [("x-demo", "1")]).raw.written :=
  send_data_key_undefined jsonStringify _ _ _ (by decide) (by decide) (by decide)
    (by decide) (by decide) (by decide) (by decide)

end SSE
